import Mathlib

/-!
Verification of the `HttpRepo` CRUD bridge from `mealie/routes/_base/mixins.py`.

The development shallowly embeds the Python module: Python strings become
`List Char`, Python string operations (`split`, `replace`, `splitlines`,
`capitalize`) are modelled as executable Lean functions with the semantics
the CPython documentation gives them (restricted, where noted, to the inputs
the source can produce), exceptions become an inductive type, and the five
bridge operations become pure functions returning the emitted event trace
(log records, rollback, repository calls) together with an outcome
(returned value, raised HTTPException, or an escaped non-HTTP Python error).
-/

set_option autoImplicit false

/-- Python strings are modelled as lists of characters. -/
abbrev PyStr := List Char

/-- Boolean test that `p` is an initial segment of `l` (helper for modelling
Python substring scanning). -/
def beginsWith : PyStr → PyStr → Bool
  | [], _ => true
  | _ :: _, [] => false
  | p :: ps, x :: xs => p == x && beginsWith ps xs

/-- Model of Python `str.split(sep)` for a nonempty separator `s0 :: sr`:
scan left to right, cutting at each (non-overlapping) occurrence of the
separator.  Always returns a nonempty list of segments. -/
def splitSub (s0 : Char) (sr : PyStr) : PyStr → List PyStr
  | [] => [[]]
  | x :: xs =>
    if beginsWith (s0 :: sr) (x :: xs) then
      [] :: splitSub s0 sr (xs.drop sr.length)
    else
      match splitSub s0 sr xs with
      | [] => [[x]]
      | y :: ys => (x :: y) :: ys
termination_by l => l.length
decreasing_by
  · simp only [List.length_cons, List.length_drop]
    omega
  · simp only [List.length_cons]
    omega

/-- Python `str.split(sep)`.  The source only calls it with nonempty literal
separators; the empty-separator case (a `ValueError` in Python) is never
exercised and is mapped to the identity split. -/
def pySplit (sep : PyStr) (l : PyStr) : List PyStr :=
  match sep with
  | [] => [l]
  | s :: ss => splitSub s ss l

/-- Concatenate segments, interleaving the separator: Python `sep.join`. -/
def joinSep (sep : PyStr) : List PyStr → PyStr
  | [] => []
  | [x] => x
  | x :: y :: ys => x ++ sep ++ joinSep sep (y :: ys)

/-- Python `str.replace(pat, rep)` for nonempty `pat`, via the identity
`s.replace(pat, rep) = rep.join(s.split(pat))`.  The empty-pattern case is
never used by the source and is mapped to the identity. -/
def pyReplace (pat rep l : PyStr) : PyStr :=
  joinSep rep (pySplit pat l)

/-- Python `str.splitlines()`, modelled for LF-separated text (the only line
separator occurring in the driver error payloads the source parses):
split on newline characters, with no trailing empty line for text that ends
in a newline, and no lines at all for the empty string. -/
def pySplitlines (l : PyStr) : List PyStr :=
  if l = [] then []
  else
    let r := splitSub '\n' [] l
    if r.getLast? = some [] then r.dropLast else r

/-- Python `str.capitalize()`: first character upper-cased, all remaining
characters lower-cased. -/
def pyCapitalize : PyStr → PyStr
  | [] => []
  | c :: cs => c.toUpper :: cs.map Char.toLower

/-- The pattern `pat` occurs as a contiguous substring of `l`. -/
def Occurs (pat l : PyStr) : Prop := ∃ a b, l = a ++ pat ++ b

/-- Identifier of an item in the repository (the source accepts `int`, `str`
or UUID ids and only ever interpolates them into messages; they are modelled
as strings). -/
abbrev ItemId := PyStr

/-- Python-level type of an exception, as passed to the optional
`exception_msgs` mapping (`type(ext)` in the source). -/
inductive ExcType
  | integrityErrorT
  | otherT (tag : Nat)
deriving DecidableEq

/-- The `orig` attribute of a SQLAlchemy `IntegrityError`: the underlying
driver-level exception.  `pgUnique` is `psycopg2.errors.UniqueViolation`
(carrying the native `pgerror` text), `sqliteIntegrity` is
`sqlite3.dbapi2.IntegrityError` (carrying its `str(...)` message), and
`otherOrig` is any other driver exception (e.g. a psycopg2 not-null or
foreign-key violation).  The two recognized classes are disjoint in Python,
which the inductive presentation reflects. -/
inductive Orig
  | pgUnique (pgerror : PyStr)
  | sqliteIntegrity (msg : PyStr)
  | otherOrig (msg : PyStr)
deriving DecidableEq

/-- Exceptions reaching the bridge: a SQLAlchemy `IntegrityError` (with its
`orig`, `statement` and `params` attributes), or any other exception,
identified by a type tag and carrying its message. -/
inductive PyExc
  | integrityError (orig : Orig) (statement : PyStr) (params : List PyStr)
  | otherExc (tag : Nat) (msg : PyStr)
deriving DecidableEq

/-- Python `type(ext)` for the modelled exceptions. -/
def PyExc.pyType : PyExc → ExcType
  | .integrityError .. => .integrityErrorT
  | .otherExc tag _ => .otherT tag

/-- Python `str(ext)`: the raw exception text placed in error-response
bodies.  Modelled as the underlying message. -/
def strOfExc : PyExc → PyStr
  | .integrityError (.pgUnique p) _ _ => p
  | .integrityError (.sqliteIntegrity m) _ _ => m
  | .integrityError (.otherOrig m) _ _ => m
  | .otherExc _ m => m

/-- Modelled from the spec: `ErrorResponse` (from `mealie.schema.response`,
not under `src/`) is "a value object with a human-readable message and
optional underlying exception text"; `ErrorResponse.respond` builds one. -/
structure ErrorResponse where
  message : PyStr
  exception : Option PyStr
deriving DecidableEq

/-- One pydantic field of an update schema: its name, current value, declared
default, and whether the caller explicitly set it. -/
structure PField where
  name : PyStr
  value : PyStr
  dflt : PyStr
  isSet : Bool
deriving DecidableEq

/-- A pydantic model instance, as far as `patch_one` observes it. -/
structure PModel where
  fields : List PField
deriving DecidableEq

/-- Modelled from the spec: pydantic `BaseModel.model_dump` with
`exclude_unset=True, exclude_defaults=True` (pydantic is an external
collaborator; the spec states that "only fields explicitly set by the caller
and differing from their default are forwarded"): the dumped mapping keeps
exactly the fields that were explicitly set and whose value differs from the
declared default. -/
def PModel.model_dump (m : PModel) : List (PyStr × PyStr) :=
  (m.fields.filter (fun f => f.isSet && f.value != f.dflt)).map
    (fun f => (f.name, f.value))

/-- Modelled from the spec: the repository collaborator (`RepositoryGeneric`,
not under `src/`).  Its interface is the spec's capability set: `get_one`
yields an item or absence (the spec annotates only the four write operations
with "may fail with storage error"), while `create`/`update`/`patch`/`delete`
either return an item or raise a storage-layer exception. -/
structure RepositoryGeneric (C R U : Type) where
  get_one : ItemId → Option PyStr → Option R
  create : C → Except PyExc R
  update : ItemId → U → Except PyExc R
  patch : ItemId → List (PyStr × PyStr) → Except PyExc R
  delete : ItemId → Except PyExc R

/-- The bridge object: repository reference, optional exception-type-to-message
mapping, and the default fallback message.  The logger reference is modelled
through the emitted event trace instead of a stored field. -/
structure HttpRepo (C R U : Type) where
  repo : RepositoryGeneric C R U
  exception_msgs : Option (ExcType → PyStr)
  default_message : PyStr

/-- The class-level default of `HttpRepo.default_message`. -/
def stdDefaultMsg : PyStr := "An unexpected error occurred.".toList

/-- `HttpRepo.__init__`: stores the repository and the mapping, and overrides
the class-level default message only when the supplied string is truthy
(`if default_message:`), i.e. non-`None` and nonempty. -/
def HttpRepo.init {C R U : Type} (repo : RepositoryGeneric C R U)
    (exception_msgs : Option (ExcType → PyStr)) (default_message : Option PyStr) :
    HttpRepo C R U :=
  { repo := repo
    exception_msgs := exception_msgs
    default_message :=
      match default_message with
      | some s => if s = [] then stdDefaultMsg else s
      | none => stdDefaultMsg }

/-- The uniqueness-violation message `f"{key.capitalize()} {value} is unavailable."`. -/
def unavailableMsg (key value : PyStr) : PyStr :=
  pyCapitalize key ++ (" ".toList) ++ value ++ (" is unavailable.".toList)

/-- The PostgreSQL branch of `get_exception_message`:
`msg = ext.orig.pgerror.splitlines()[1]`, strip `"DETAIL:  Key "` and
`" already exists."`, strip parentheses, split on `"="` into key and value.
Returns `none` where Python raises (`IndexError` when there is no second
line, `ValueError` when the `key, value = ...` unpacking does not see
exactly two parts). -/
def pgParse (pgerror : PyStr) : Option (PyStr × PyStr) :=
  match (pySplitlines pgerror)[1]? with
  | none => none
  | some line =>
    let msg1 := pyReplace ("DETAIL:  Key ".toList) [] line
    let msg2 := pyReplace (" already exists.".toList) [] msg1
    let msg3 := pyReplace ("(".toList) [] msg2
    let msg4 := pyReplace (")".toList) [] msg3
    match pySplit ("=".toList) msg4 with
    | [key, value] => some (key, value)
    | _ => none

/-- The SQLite branch of `get_exception_message`:
`keys = ext.statement.split("(")[1].split(")")[0].split(", ")`,
`key = str(ext.orig).split("UNIQUE constraint failed: ")[1].split(".")[1]`,
`param_index = keys.index(key)`, `value = ext.params[param_index]`.
Returns `none` where Python raises (`IndexError` on a missing list element,
`ValueError` when `key` is not among `keys`). -/
def sqliteParse (statement : PyStr) (params : List PyStr) (origMsg : PyStr) :
    Option (PyStr × PyStr) :=
  match (pySplit ("(".toList) statement)[1]? with
  | none => none
  | some seg =>
    match (pySplit (")".toList) seg)[0]? with
    | none => none
    | some colsStr =>
      let keys := pySplit (", ".toList) colsStr
      match (pySplit ("UNIQUE constraint failed: ".toList) origMsg)[1]? with
      | none => none
      | some qualified =>
        match (pySplit (".".toList) qualified)[1]? with
        | none => none
        | some key =>
          if key ∈ keys then
            match params[keys.indexOf key]? with
            | none => none
            | some value => some (key, value)
          else none

/-- `HttpRepo.get_exception_message`.  For an `IntegrityError` the branch
taken depends on `ext.orig`; when `orig` is neither recognized driver class,
the source's final f-string reads the never-assigned locals `key`/`value`
and Python raises `UnboundLocalError` — modelled as `none` (no message is
produced; an exception escapes).  Any non-`IntegrityError` exception is
mapped through `exception_msgs` when one was supplied (`if
self.exception_msgs:` — a function object is always truthy), else to the
default message. -/
def HttpRepo.get_exception_message {C R U : Type} (self : HttpRepo C R U)
    (ext : PyExc) : Option PyStr :=
  match ext with
  | .integrityError orig statement params =>
    match orig with
    | .pgUnique pgerror =>
      match pgParse pgerror with
      | some kv => some (unavailableMsg kv.1 kv.2)
      | none => none
    | .sqliteIntegrity origMsg =>
      match sqliteParse statement params origMsg with
      | some kv => some (unavailableMsg kv.1 kv.2)
      | none => none
    | .otherOrig _ => none
  | .otherExc _ _ =>
    match self.exception_msgs with
    | some f => some (f ext.pyType)
    | none => some self.default_message

/-- Observable side effects of a bridge operation, in emission order. -/
inductive Ev
  | logException (e : PyExc)
  | rollback
  | logInfo (msg : PyStr)
  | repoGet
  | repoCreate
  | repoUpdate
  | repoPatch (args : List (PyStr × PyStr))
  | repoDelete
deriving DecidableEq

/-- How a bridge operation terminates: a Python return value (`returned`),
a raised `HTTPException` with status and structured detail (`httpError`), or
a non-HTTP Python exception escaping the operation (`crashed`, e.g. the
`UnboundLocalError` from `get_exception_message`). -/
inductive Outcome (R : Type)
  | returned (r : Option R)
  | httpError (status : Nat) (detail : ErrorResponse)
  | crashed
deriving DecidableEq

/-- `HttpRepo.handle_exception`: log the exception, roll the session back,
compute the display message, then raise `HTTPException(400, ErrorResponse
.respond(message=msg, exception=str(ex)))`.  When `get_exception_message`
itself raises, the log and the rollback have already happened and the
non-HTTP exception escapes. -/
def HttpRepo.handle_exception {C R U : Type} (self : HttpRepo C R U)
    (ex : PyExc) : List Ev × Outcome R :=
  ([Ev.logException ex, Ev.rollback],
    match self.get_exception_message ex with
    | some msg => Outcome.httpError 400 ⟨msg, some (strOfExc ex)⟩
    | none => Outcome.crashed)

/-- The 404 detail body `ErrorResponse.respond(message="Not found.")`. -/
def notFoundDetail : ErrorResponse := ⟨"Not found.".toList, none⟩

/-- `HttpRepo.create_one`: `item = self.repo.create(data)`, any exception is
routed to `handle_exception`. -/
def HttpRepo.create_one {C R U : Type} (self : HttpRepo C R U) (data : C) :
    List Ev × Outcome R :=
  match self.repo.create data with
  | .ok item => ([Ev.repoCreate], Outcome.returned (some item))
  | .error ex =>
    let h := self.handle_exception ex
    (Ev.repoCreate :: h.1, h.2)

/-- `HttpRepo.get_one`: repository lookup; `404` with "Not found." when the
lookup yields nothing, otherwise the item is returned unchanged.  The lookup
itself is not wrapped in a `try`. -/
def HttpRepo.get_one {C R U : Type} (self : HttpRepo C R U)
    (item_id : ItemId) (key : Option PyStr) : List Ev × Outcome R :=
  match self.repo.get_one item_id key with
  | none => ([Ev.repoGet], Outcome.httpError 404 notFoundDetail)
  | some item => ([Ev.repoGet], Outcome.returned (some item))

/-- `HttpRepo.update_one`: existence check first (`404` when absent), then
`self.repo.update(item_id, data)` with exceptions routed to
`handle_exception`. -/
def HttpRepo.update_one {C R U : Type} (self : HttpRepo C R U)
    (data : U) (item_id : ItemId) : List Ev × Outcome R :=
  match self.repo.get_one item_id none with
  | none => ([Ev.repoGet], Outcome.httpError 404 notFoundDetail)
  | some _ =>
    match self.repo.update item_id data with
    | .ok item => ([Ev.repoGet, Ev.repoUpdate], Outcome.returned (some item))
    | .error ex =>
      let h := self.handle_exception ex
      (Ev.repoGet :: Ev.repoUpdate :: h.1, h.2)

/-- `HttpRepo.patch_one`: existence check first (`404` when absent), then
`self.repo.patch(item_id, data.model_dump(exclude_unset=True,
exclude_defaults=True))` with exceptions routed to `handle_exception`. -/
def HttpRepo.patch_one {C R U : Type} (self : HttpRepo C R U)
    (data : PModel) (item_id : ItemId) : List Ev × Outcome R :=
  match self.repo.get_one item_id none with
  | none => ([Ev.repoGet], Outcome.httpError 404 notFoundDetail)
  | some _ =>
    match self.repo.patch item_id data.model_dump with
    | .ok item =>
      ([Ev.repoGet, Ev.repoPatch data.model_dump], Outcome.returned (some item))
    | .error ex =>
      let h := self.handle_exception ex
      (Ev.repoGet :: Ev.repoPatch data.model_dump :: h.1, h.2)

/-- Text of the informational record logged by `delete_one`
(`f"Deleting item with id {item_id}"`, up to the interpolated id). -/
def deleteLogText : PyStr := "Deleting item with id ".toList

/-- `HttpRepo.delete_one`: `item = self.repo.delete(item_id)` followed (only
on success) by `self.logger.info(f"Deleting item with id {item_id}")`;
exceptions are routed to `handle_exception`. -/
def HttpRepo.delete_one {C R U : Type} (self : HttpRepo C R U)
    (item_id : ItemId) : List Ev × Outcome R :=
  match self.repo.delete item_id with
  | .ok item =>
    ([Ev.repoDelete, Ev.logInfo (deleteLogText ++ item_id)],
      Outcome.returned (some item))
  | .error ex =>
    let h := self.handle_exception ex
    (Ev.repoDelete :: h.1, h.2)

/-- A call to one of the five bridge operations, with its arguments. -/
inductive OpCall (C U : Type)
  | createC (data : C)
  | getC (item_id : ItemId) (key : Option PyStr)
  | updateC (data : U) (item_id : ItemId)
  | patchC (data : PModel) (item_id : ItemId)
  | deleteC (item_id : ItemId)

/-- Dispatch an `OpCall` to the corresponding bridge operation. -/
def HttpRepo.runOp {C R U : Type} (self : HttpRepo C R U) :
    OpCall C U → List Ev × Outcome R
  | .createC d => self.create_one d
  | .getC i k => self.get_one i k
  | .updateC d i => self.update_one d i
  | .patchC d i => self.patch_one d i
  | .deleteC i => self.delete_one i

/-- The repository raised `e` during the write call the operation performs
(for `update`/`patch` the write is only reached when the existence check
passed; `get_one` performs no write). -/
def opRaised {C R U : Type} (self : HttpRepo C R U) :
    OpCall C U → PyExc → Prop
  | .createC d, e => self.repo.create d = .error e
  | .getC _ _, _ => False
  | .updateC d i, e =>
    (∃ item, self.repo.get_one i none = some item) ∧
      self.repo.update i d = .error e
  | .patchC d i, e =>
    (∃ item, self.repo.get_one i none = some item) ∧
      self.repo.patch i d.model_dump = .error e
  | .deleteC i, e => self.repo.delete i = .error e

/-- An outcome is "structured" when the operation returned an actual object
or raised an `HTTPException`. -/
def Outcome.isStructured {R : Type} : Outcome R → Bool
  | .returned (some _) => true
  | .httpError _ _ => true
  | _ => false

/-- The operation returned Python `None`. -/
def Outcome.isRetNone {R : Type} : Outcome R → Bool
  | .returned none => true
  | _ => false

/-- The operation raised an `HTTPException` with status 400. -/
def Outcome.is400 {R : Type} : Outcome R → Bool
  | .httpError 400 _ => true
  | _ => false

/-- Number of session rollbacks in an event trace. -/
def rollbackCount (evs : List Ev) : Nat :=
  (evs.filter (fun e => match e with | Ev.rollback => true | _ => false)).length

/-- Number of repository write calls (create/update/patch/delete) in a trace. -/
def writeCount (evs : List Ev) : Nat :=
  (evs.filter (fun e =>
    match e with
    | Ev.repoCreate => true
    | Ev.repoUpdate => true
    | Ev.repoPatch _ => true
    | Ev.repoDelete => true
    | _ => false)).length

/-- The informational log records of a trace. -/
def infoEvents (evs : List Ev) : List Ev :=
  evs.filter (fun e => match e with | Ev.logInfo _ => true | _ => false)

/-- Characters allowed in database column and table names for the
uniqueness-violation statements: lowercase letters, digits, underscore. -/
def isColChar (c : Char) : Bool := c.isLower || c.isDigit || c == '_'

/-- Characters allowed in the conflicting values of the canonical
uniqueness-violation payloads: letters and digits. -/
def isValChar (c : Char) : Bool := c.isAlphanum

/-- The second (`DETAIL`) line of a PostgreSQL duplicate-key error for field
`key` and value `value`. -/
def pgDetail (key value : PyStr) : PyStr :=
  ("DETAIL:  Key (".toList) ++ key ++ (")=(".toList) ++ value ++
    (") already exists.".toList)

/-- The native `pgerror` text of a PostgreSQL unique violation: a first line
(`ERROR: ...`) followed by the `DETAIL` line. -/
def mkPgError (line0 key value : PyStr) : PyStr :=
  line0 ++ '\n' :: pgDetail key value

/-- `str(...)` of the corresponding `sqlite3` integrity error:
`UNIQUE constraint failed: <table>.<key>`. -/
def mkSqliteMsg (table key : PyStr) : PyStr :=
  ("UNIQUE constraint failed: ".toList) ++ table ++ '.' :: key

/-- The failing INSERT statement recorded on the SQLAlchemy error for the
SQLite driver: some text without parentheses, the parenthesized column list,
then the `VALUES` tail whose own parenthesis the parser must not confuse
with the column list. -/
def mkSqliteStmt (pre : PyStr) (cols : List PyStr) (postA postB : PyStr) : PyStr :=
  pre ++ '(' :: (joinSep (", ".toList) cols ++ ')' :: (postA ++ '(' :: postB))

/-- A driver exception the translation logic does not recognize: a
SQLAlchemy `IntegrityError` whose `orig` is a psycopg2 foreign-key
violation. -/
def excFK : PyExc :=
  PyExc.integrityError (Orig.otherOrig ("FOREIGN KEY constraint failed".toList))
    [] []

/-- A non-IntegrityError storage exception (e.g. an operational error). -/
def excBoom : PyExc := PyExc.otherExc 7 ("boom".toList)

/-- Repository instance whose write operations all fail with the
unrecognized integrity error `excFK`. -/
def badRepo : RepositoryGeneric Nat Nat Nat :=
  { get_one := fun _ _ => some 1
    create := fun _ => .error excFK
    update := fun _ _ => .error excFK
    patch := fun _ _ => .error excFK
    delete := fun _ => .error excFK }

/-- Bridge over `badRepo`, constructed with no custom mapping and no default
override. -/
def badSelf : HttpRepo Nat Nat Nat := HttpRepo.init badRepo none none

/-- A custom exception-type-to-message mapping. -/
def mapFun : ExcType → PyStr := fun _ => ("mapped".toList)

/-- Bridge over `badRepo` constructed with the custom mapping `mapFun`. -/
def mapSelf : HttpRepo Nat Nat Nat := HttpRepo.init badRepo (some mapFun) none

/-- Repository instance whose write operations fail with the ordinary
exception `excBoom`, and whose lookup finds items only for the id `"x"`. -/
def failRepo : RepositoryGeneric Nat Nat Nat :=
  { get_one := fun i _ => if i = ("x".toList) then some 5 else none
    create := fun _ => .error excBoom
    update := fun _ _ => .error excBoom
    patch := fun _ _ => .error excBoom
    delete := fun _ => .error excBoom }

/-- Bridge over `failRepo` with default construction. -/
def failSelf : HttpRepo Nat Nat Nat := HttpRepo.init failRepo none none

/-- Repository instance whose operations all succeed, finding items only for
the id `"x"`. -/
def okRepo : RepositoryGeneric Nat Nat Nat :=
  { get_one := fun i _ => if i = ("x".toList) then some 5 else none
    create := fun _ => .ok 1
    update := fun _ _ => .ok 2
    patch := fun _ _ => .ok 3
    delete := fun _ => .ok 4 }

/-- Bridge over `okRepo` with default construction. -/
def okSelf : HttpRepo Nat Nat Nat := HttpRepo.init okRepo none none

/-- Sample pydantic instance for the patch claims: one set-and-changed
field, one set field equal to its default, and one unset field. -/
def pmSample : PModel :=
  { fields :=
      [ ⟨"name".toList, "Soup".toList, [], true⟩
      , ⟨"slug".toList, "soup".toList, "soup".toList, true⟩
      , ⟨"note".toList, "n".toList, [], false⟩ ] }

theorem beginsWith_append (p t : PyStr) : beginsWith p (p ++ t) = true := by
  induction p with
  | nil => rfl
  | cons x xs ih => simp [beginsWith, ih]

theorem beginsWith_cons_ne {s0 x : Char} (sr : PyStr) (xs : PyStr) (h : s0 ≠ x) :
    beginsWith (s0 :: sr) (x :: xs) = false := by
  simp [beginsWith, h]

theorem beginsWith_exists {p l : PyStr} (h : beginsWith p l = true) :
    ∃ t, l = p ++ t := by
  induction p generalizing l with
  | nil => exact ⟨l, rfl⟩
  | cons x xs ih =>
    cases l with
    | nil => simp [beginsWith] at h
    | cons y ys =>
      simp only [beginsWith, Bool.and_eq_true, beq_iff_eq] at h
      obtain ⟨rfl, h2⟩ := h
      obtain ⟨t, rfl⟩ := ih h2
      exact ⟨t, rfl⟩

theorem occurs_mem {pat l : PyStr} (h : Occurs pat l) {c : Char} (hc : c ∈ pat) :
    c ∈ l := by
  obtain ⟨a, b, rfl⟩ := h
  simp [List.mem_append, hc]

theorem not_occurs_of {pat l : PyStr} {c : Char} (hcp : c ∈ pat) (hcl : c ∉ l) :
    ¬ Occurs pat l := fun h => hcl (occurs_mem h hcp)

theorem occurs_cons {pat l : PyStr} (x : Char) (h : Occurs pat l) :
    Occurs pat (x :: l) := by
  obtain ⟨a, b, rfl⟩ := h
  exact ⟨x :: a, b, rfl⟩

theorem not_mem_of_pred {l : PyStr} {p : Char → Bool} (hl : ∀ c ∈ l, p c = true)
    {c : Char} (hc : p c = false) : c ∉ l := fun hm => by
  rw [hl c hm] at hc
  cases hc

theorem not_mem_append {c : Char} {a b : PyStr} (ha : c ∉ a) (hb : c ∉ b) :
    c ∉ a ++ b := fun hm => (List.mem_append.1 hm).elim ha hb

theorem splitSub_nil (s0 : Char) (sr : PyStr) : splitSub s0 sr [] = [[]] := by
  simp [splitSub]

theorem splitSub_cons (s0 : Char) (sr : PyStr) (x : Char) (xs : PyStr) :
    splitSub s0 sr (x :: xs) =
      if beginsWith (s0 :: sr) (x :: xs) then
        [] :: splitSub s0 sr (xs.drop sr.length)
      else
        match splitSub s0 sr xs with
        | [] => [[x]]
        | y :: ys => (x :: y) :: ys := by
  rw [splitSub]

theorem splitSub_eq_single {s0 : Char} {sr l : PyStr} (h : ¬ Occurs (s0 :: sr) l) :
    splitSub s0 sr l = [l] := by
  induction l with
  | nil => exact splitSub_nil s0 sr
  | cons x xs ih =>
    rw [splitSub_cons]
    have hb : beginsWith (s0 :: sr) (x :: xs) = false := by
      cases hbw : beginsWith (s0 :: sr) (x :: xs) with
      | false => rfl
      | true =>
        obtain ⟨t, ht⟩ := beginsWith_exists hbw
        exact absurd ⟨[], t, by simp [ht]⟩ h
    rw [hb]
    simp only [Bool.false_eq_true, if_false]
    rw [ih (fun ho => h (occurs_cons x ho))]

theorem splitSub_append {s0 : Char} (sr b : PyStr) {a : PyStr} (ha : s0 ∉ a) :
    splitSub s0 sr (a ++ (s0 :: sr) ++ b) = a :: splitSub s0 sr b := by
  induction a with
  | nil =>
    simp only [List.nil_append, List.cons_append]
    rw [splitSub_cons]
    have hb : beginsWith (s0 :: sr) (s0 :: (sr ++ b)) = true := by
      have := beginsWith_append (s0 :: sr) b
      simpa using this
    rw [hb, if_pos rfl]
    rw [List.drop_left sr b]
  | cons x a' ih =>
    have hx : s0 ≠ x := fun hc => ha (hc ▸ List.mem_cons_self x a')
    have ha' : s0 ∉ a' := fun hc => ha (List.mem_cons_of_mem x hc)
    simp only [List.cons_append]
    rw [splitSub_cons, beginsWith_cons_ne _ _ hx]
    simp only [Bool.false_eq_true, if_false]
    have := ih ha'
    simp only [List.cons_append] at this
    rw [this]

theorem joinSep_single (sep x : PyStr) : joinSep sep [x] = x := rfl

theorem joinSep_cons2 (sep x y : PyStr) (ys : List PyStr) :
    joinSep sep (x :: y :: ys) = x ++ sep ++ joinSep sep (y :: ys) := rfl

theorem pyReplace_of_not_occurs {p0 : Char} {pr l : PyStr} (rep : PyStr)
    (h : ¬ Occurs (p0 :: pr) l) : pyReplace (p0 :: pr) rep l = l := by
  simp only [pyReplace, pySplit]
  rw [splitSub_eq_single h]
  exact joinSep_single rep l

theorem pyReplace_one {p0 : Char} {pr a b : PyStr} (rep : PyStr)
    (ha : p0 ∉ a) (hb : ¬ Occurs (p0 :: pr) b) :
    pyReplace (p0 :: pr) rep (a ++ (p0 :: pr) ++ b) = a ++ rep ++ b := by
  simp only [pyReplace, pySplit]
  rw [splitSub_append pr b ha, splitSub_eq_single hb]
  cases a with
  | nil => simp [joinSep]
  | cons x xs => simp [joinSep]

theorem pyReplace_two {p0 : Char} {pr a b c : PyStr} (rep : PyStr)
    (ha : p0 ∉ a) (hb : p0 ∉ b) (hc : ¬ Occurs (p0 :: pr) c) :
    pyReplace (p0 :: pr) rep (a ++ (p0 :: pr) ++ b ++ (p0 :: pr) ++ c) =
      a ++ rep ++ b ++ rep ++ c := by
  simp only [pyReplace, pySplit]
  have h1 : a ++ (p0 :: pr) ++ b ++ (p0 :: pr) ++ c =
      a ++ (p0 :: pr) ++ (b ++ (p0 :: pr) ++ c) := by
    simp [List.append_assoc]
  rw [h1, splitSub_append pr _ ha, splitSub_append pr c hb, splitSub_eq_single hc]
  simp [joinSep, List.append_assoc]

theorem pyReplace_final {p0 : Char} {pr a : PyStr} (rep : PyStr) (ha : p0 ∉ a) :
    pyReplace (p0 :: pr) rep (a ++ (p0 :: pr)) = a ++ rep := by
  have h := @pyReplace_one p0 pr a [] rep ha
    (not_occurs_of (List.mem_cons_self p0 pr) (List.not_mem_nil p0))
  simpa using h

theorem pyReplace_two_final {p0 : Char} {pr a b : PyStr} (rep : PyStr)
    (ha : p0 ∉ a) (hb : p0 ∉ b) :
    pyReplace (p0 :: pr) rep (a ++ (p0 :: pr) ++ b ++ (p0 :: pr)) =
      a ++ rep ++ b ++ rep := by
  have h := @pyReplace_two p0 pr a b [] rep ha hb
    (not_occurs_of (List.mem_cons_self p0 pr) (List.not_mem_nil p0))
  simpa using h

theorem mem_joinSep {c : Char} {sep : PyStr} {ls : List PyStr}
    (h : c ∈ joinSep sep ls) : c ∈ sep ∨ ∃ x ∈ ls, c ∈ x := by
  induction ls with
  | nil => simp [joinSep] at h
  | cons x xs ih =>
    cases xs with
    | nil =>
      rw [joinSep_single] at h
      exact Or.inr ⟨x, List.mem_cons_self x [], h⟩
    | cons y ys =>
      rw [joinSep_cons2] at h
      rcases List.mem_append.1 h with h1 | h2
      · rcases List.mem_append.1 h1 with hx | hs
        · exact Or.inr ⟨x, List.mem_cons_self x (y :: ys), hx⟩
        · exact Or.inl hs
      · rcases ih h2 with hs | ⟨z, hz, hcz⟩
        · exact Or.inl hs
        · exact Or.inr ⟨z, List.mem_cons_of_mem x hz, hcz⟩

theorem not_mem_joinSep {c : Char} {sep : PyStr} {ls : List PyStr}
    (hsep : c ∉ sep) (hx : ∀ x ∈ ls, c ∉ x) : c ∉ joinSep sep ls := fun hm =>
  (mem_joinSep hm).elim hsep (fun ⟨x, hxm, hcx⟩ => hx x hxm hcx)

theorem splitSub_joinSep {s0 : Char} (sr : PyStr) {cols : List PyStr}
    (h : ∀ col ∈ cols, s0 ∉ col) (hne : cols ≠ []) :
    splitSub s0 sr (joinSep (s0 :: sr) cols) = cols := by
  induction cols with
  | nil => exact absurd rfl hne
  | cons x xs ih =>
    cases xs with
    | nil =>
      rw [joinSep_single]
      exact splitSub_eq_single
        (not_occurs_of (List.mem_cons_self s0 sr) (h x (List.mem_cons_self x [])))
    | cons y ys =>
      rw [joinSep_cons2]
      rw [splitSub_append sr _ (h x (List.mem_cons_self x (y :: ys)))]
      rw [ih (fun col hc => h col (List.mem_cons_of_mem x hc)) (by simp)]

theorem not_mem_cons {c x : Char} {l : PyStr} (h1 : c ≠ x) (h2 : c ∉ l) :
    c ∉ x :: l := fun hm => (List.mem_cons.1 hm).elim h1 h2

theorem sqliteParse_canonical {table key value pre postA postB : PyStr}
    {cols : List PyStr} {params : List PyStr}
    (htable : ∀ c ∈ table, isColChar c = true)
    (hcols : ∀ col ∈ cols, ∀ c ∈ col, isColChar c = true)
    (hne : cols ≠ [])
    (hmem : key ∈ cols)
    (hpre : '(' ∉ pre)
    (hpostA : '(' ∉ postA)
    (hparam : params[cols.indexOf key]? = some value) :
    sqliteParse (mkSqliteStmt pre cols postA postB) params
      (mkSqliteMsg table key) = some (key, value) := by
  have hkey : ∀ c ∈ key, isColChar c = true := hcols key hmem
  have hUtab : 'U' ∉ table := not_mem_of_pred htable (by decide)
  have hUkey : 'U' ∉ key := not_mem_of_pred hkey (by decide)
  have hDtab : '.' ∉ table := not_mem_of_pred htable (by decide)
  have hDkey : '.' ∉ key := not_mem_of_pred hkey (by decide)
  have hLPcols : '(' ∉ joinSep (", ".toList) cols :=
    not_mem_joinSep (by decide)
      (fun col hc => not_mem_of_pred (hcols col hc) (by decide))
  have hRPcols : ')' ∉ joinSep (", ".toList) cols :=
    not_mem_joinSep (by decide)
      (fun col hc => not_mem_of_pred (hcols col hc) (by decide))
  have ep1 : pySplit ("(".toList) (mkSqliteStmt pre cols postA postB)
      = pre :: (joinSep (", ".toList) cols ++ ')' :: postA) ::
          splitSub '(' [] postB := by
    rw [show ("(".toList : PyStr) = '(' :: ([] : PyStr) from rfl]
    simp only [pySplit]
    have sh : mkSqliteStmt pre cols postA postB
        = pre ++ ('(' :: []) ++
            ((joinSep (", ".toList) cols ++ ')' :: postA) ++ ('(' :: []) ++
              postB) := by
      unfold mkSqliteStmt
      simp [List.append_assoc]
    rw [sh, splitSub_append [] _ hpre,
      splitSub_append [] postB
        (not_mem_append hLPcols (not_mem_cons (by decide) hpostA))]
  have ep2 : pySplit (")".toList)
      (joinSep (", ".toList) cols ++ ')' :: postA)
      = (joinSep (", ".toList) cols) :: splitSub ')' [] postA := by
    rw [show (")".toList : PyStr) = ')' :: ([] : PyStr) from rfl]
    simp only [pySplit]
    rw [show (joinSep (", ".toList) cols ++ ')' :: postA : PyStr)
        = joinSep (", ".toList) cols ++ (')' :: []) ++ postA from by simp]
    rw [splitSub_append [] postA hRPcols]
  have ep3 : pySplit (", ".toList) (joinSep (", ".toList) cols) = cols := by
    rw [show (", ".toList : PyStr) = ',' :: (' ' :: ([] : PyStr)) from rfl]
    simp only [pySplit]
    exact splitSub_joinSep (' ' :: [])
      (fun col hc => not_mem_of_pred (hcols col hc) (by decide)) hne
  have ep4 : pySplit ("UNIQUE constraint failed: ".toList)
      (mkSqliteMsg table key) = [[], table ++ '.' :: key] := by
    rw [show ("UNIQUE constraint failed: ".toList : PyStr)
        = 'U' :: ("NIQUE constraint failed: ".toList) from rfl]
    simp only [pySplit]
    have sh4 : mkSqliteMsg table key
        = ([] : PyStr) ++ ('U' :: ("NIQUE constraint failed: ".toList)) ++
            (table ++ '.' :: key) := by
      unfold mkSqliteMsg
      rw [show ("UNIQUE constraint failed: ".toList : PyStr)
          = 'U' :: ("NIQUE constraint failed: ".toList) from rfl]
      simp [List.append_assoc]
    rw [sh4, splitSub_append ("NIQUE constraint failed: ".toList) _
        (List.not_mem_nil 'U'),
      splitSub_eq_single
        (not_occurs_of (List.mem_cons_self 'U' _)
          (not_mem_append hUtab (not_mem_cons (by decide) hUkey)))]
  have ep5 : pySplit (".".toList) (table ++ '.' :: key) = [table, key] := by
    rw [show (".".toList : PyStr) = '.' :: ([] : PyStr) from rfl]
    simp only [pySplit]
    rw [show (table ++ '.' :: key : PyStr) = table ++ ('.' :: []) ++ key
        from by simp]
    rw [splitSub_append [] key hDtab,
      splitSub_eq_single (not_occurs_of (List.mem_cons_self '.' []) hDkey)]
  simp only [sqliteParse, ep1, ep2, ep3, ep4, ep5, List.getElem?_cons_succ,
    List.getElem?_cons_zero, hparam, hmem, if_true]

theorem pySplitlines_two {line0 rest : PyStr} (h0 : '\n' ∉ line0)
    (hr : '\n' ∉ rest) (hne : rest ≠ []) :
    pySplitlines (line0 ++ '\n' :: rest) = [line0, rest] := by
  have hsp : splitSub '\n' [] (line0 ++ '\n' :: rest) = [line0, rest] := by
    have hshape : line0 ++ '\n' :: rest = line0 ++ ('\n' :: []) ++ rest := by simp
    rw [hshape, splitSub_append [] rest h0,
      splitSub_eq_single (not_occurs_of (List.mem_cons_self '\n' []) hr)]
  have hlne : line0 ++ '\n' :: rest ≠ [] := by simp
  unfold pySplitlines
  rw [if_neg hlne]
  simp only [hsp]
  rw [if_neg (by simp [hne])]

theorem pgParse_canonical {line0 key value : PyStr}
    (h0 : '\n' ∉ line0)
    (hkey : ∀ c ∈ key, isColChar c = true)
    (hval : ∀ c ∈ value, isValChar c = true) :
    pgParse (mkPgError line0 key value) = some (key, value) := by
  have kcolon : ':' ∉ key := not_mem_of_pred hkey (by decide)
  have vcolon : ':' ∉ value := not_mem_of_pred hval (by decide)
  have knl : '\n' ∉ key := not_mem_of_pred hkey (by decide)
  have vnl : '\n' ∉ value := not_mem_of_pred hval (by decide)
  have kpar : '(' ∉ key := not_mem_of_pred hkey (by decide)
  have vpar : '(' ∉ value := not_mem_of_pred hval (by decide)
  have krpar : ')' ∉ key := not_mem_of_pred hkey (by decide)
  have vrpar : ')' ∉ value := not_mem_of_pred hval (by decide)
  have keq : '=' ∉ key := not_mem_of_pred hkey (by decide)
  have veq : '=' ∉ value := not_mem_of_pred hval (by decide)
  have ksp : ' ' ∉ key := not_mem_of_pred hkey (by decide)
  have vsp : ' ' ∉ value := not_mem_of_pred hval (by decide)
  have hdnl : '\n' ∉ pgDetail key value := by
    unfold pgDetail
    exact not_mem_append (not_mem_append (not_mem_append (not_mem_append
      (by decide) knl) (by decide)) vnl) (by decide)
  have hsl : pySplitlines (mkPgError line0 key value) =
      [line0, pgDetail key value] := by
    unfold mkPgError
    exact pySplitlines_two h0 hdnl (by simp [pgDetail])
  have e1 : pyReplace ("DETAIL:  Key ".toList) [] (pgDetail key value)
      = ("(".toList) ++ key ++ (")=(".toList) ++ value ++
          (") already exists.".toList) := by
    have s1 : pgDetail key value
        = ([] : PyStr) ++ ('D' :: ("ETAIL:  Key ".toList)) ++
            (("(".toList) ++ key ++ (")=(".toList) ++ value ++
              (") already exists.".toList)) := by
      unfold pgDetail
      rw [show ("DETAIL:  Key (".toList : PyStr)
          = ('D' :: ("ETAIL:  Key ".toList)) ++ ("(".toList) from by decide]
      simp [List.append_assoc]
    have hocc : ¬ Occurs ('D' :: ("ETAIL:  Key ".toList))
        (("(".toList) ++ key ++ (")=(".toList) ++ value ++
          (") already exists.".toList)) :=
      not_occurs_of (c := ':') (by decide)
        (not_mem_append (not_mem_append (not_mem_append (not_mem_append
          (by decide) kcolon) (by decide)) vcolon) (by decide))
    rw [show ("DETAIL:  Key ".toList : PyStr)
        = 'D' :: ("ETAIL:  Key ".toList) from rfl, s1]
    have h := @pyReplace_one 'D' ("ETAIL:  Key ".toList) []
      (("(".toList) ++ key ++ (")=(".toList) ++ value ++
        (") already exists.".toList)) [] (List.not_mem_nil 'D') hocc
    simpa using h
  have e2 : pyReplace (" already exists.".toList) []
      (("(".toList) ++ key ++ (")=(".toList) ++ value ++
        (") already exists.".toList))
      = ("(".toList) ++ key ++ (")=(".toList) ++ value ++ (")".toList) := by
    have s2 : (("(".toList) ++ key ++ (")=(".toList) ++ value ++
          (") already exists.".toList) : PyStr)
        = (("(".toList) ++ key ++ (")=(".toList) ++ value ++ (")".toList)) ++
            (' ' :: ("already exists.".toList)) := by
      rw [show (") already exists.".toList : PyStr)
          = (")".toList) ++ (' ' :: ("already exists.".toList)) from by decide]
      simp [List.append_assoc]
    have hsp2 : ' ' ∉ (("(".toList) ++ key ++ (")=(".toList) ++ value ++
        (")".toList) : PyStr) :=
      not_mem_append (not_mem_append (not_mem_append (not_mem_append
        (by decide) ksp) (by decide)) vsp) (by decide)
    rw [show (" already exists.".toList : PyStr)
        = ' ' :: ("already exists.".toList) from rfl, s2]
    have h := @pyReplace_final ' ' ("already exists.".toList)
      (("(".toList) ++ key ++ (")=(".toList) ++ value ++ (")".toList)) [] hsp2
    simpa using h
  have e3 : pyReplace ("(".toList) []
      (("(".toList) ++ key ++ (")=(".toList) ++ value ++ (")".toList))
      = key ++ (")=".toList) ++ value ++ (")".toList) := by
    have s3 : (('(' :: ([] : PyStr)) ++ key ++ (")=(".toList) ++ value ++
          (")".toList) : PyStr)
        = ([] : PyStr) ++ ('(' :: []) ++ (key ++ (")=".toList)) ++ ('(' :: []) ++
            (value ++ (")".toList)) := by
      rw [show (")=(".toList : PyStr) = (")=".toList) ++ ('(' :: []) from by decide]
      simp [List.append_assoc]
    have hb : '(' ∉ (key ++ (")=".toList) : PyStr) :=
      not_mem_append kpar (by decide)
    have hc : ¬ Occurs ('(' :: []) (value ++ (")".toList)) :=
      not_occurs_of (List.mem_cons_self '(' [])
        (not_mem_append vpar (by decide))
    rw [show ("(".toList : PyStr) = '(' :: ([] : PyStr) from rfl, s3]
    have h := @pyReplace_two '(' [] [] (key ++ (")=".toList))
      (value ++ (")".toList)) [] (List.not_mem_nil '(') hb hc
    simpa [List.append_assoc] using h
  have e4 : pyReplace (")".toList) []
      (key ++ (")=".toList) ++ value ++ (")".toList))
      = key ++ ("=".toList) ++ value := by
    have s4 : (key ++ (")=".toList) ++ value ++ (')' :: ([] : PyStr)) : PyStr)
        = key ++ (')' :: []) ++ (("=".toList) ++ value) ++ (')' :: []) := by
      rw [show (")=".toList : PyStr) = (')' :: []) ++ ("=".toList) from by decide]
      simp [List.append_assoc]
    have hb : ')' ∉ (("=".toList) ++ value : PyStr) :=
      not_mem_append (by decide) vrpar
    rw [show (")".toList : PyStr) = ')' :: ([] : PyStr) from rfl, s4]
    have h := @pyReplace_two_final ')' [] key (("=".toList) ++ value)
      [] krpar hb
    simpa [List.append_assoc] using h
  have e5 : pySplit ("=".toList) (key ++ ("=".toList) ++ value) = [key, value] := by
    rw [show ("=".toList : PyStr) = '=' :: ([] : PyStr) from rfl]
    simp only [pySplit]
    rw [splitSub_append [] value keq,
      splitSub_eq_single (not_occurs_of (List.mem_cons_self '=' []) veq)]
  simp only [pgParse, hsl, List.getElem?_cons_succ, List.getElem?_cons_zero,
    e1, e2, e3, e4, e5]

theorem create_one_ok {C R U : Type} (self : HttpRepo C R U) (d : C) {r : R}
    (h : self.repo.create d = .ok r) :
    self.create_one d = ([Ev.repoCreate], Outcome.returned (some r)) := by
  simp [HttpRepo.create_one, h]

theorem create_one_error {C R U : Type} (self : HttpRepo C R U) (d : C)
    {e : PyExc} (h : self.repo.create d = .error e) :
    self.create_one d =
      ([Ev.repoCreate, Ev.logException e, Ev.rollback],
        match self.get_exception_message e with
        | some msg => Outcome.httpError 400 ⟨msg, some (strOfExc e)⟩
        | none => Outcome.crashed) := by
  simp [HttpRepo.create_one, HttpRepo.handle_exception, h]

theorem get_one_found {C R U : Type} (self : HttpRepo C R U) (i : ItemId)
    (k : Option PyStr) {r : R} (h : self.repo.get_one i k = some r) :
    self.get_one i k = ([Ev.repoGet], Outcome.returned (some r)) := by
  simp [HttpRepo.get_one, h]

theorem get_one_missing {C R U : Type} (self : HttpRepo C R U) (i : ItemId)
    (k : Option PyStr) (h : self.repo.get_one i k = none) :
    self.get_one i k = ([Ev.repoGet], Outcome.httpError 404 notFoundDetail) := by
  simp [HttpRepo.get_one, h]

theorem update_one_missing {C R U : Type} (self : HttpRepo C R U) (d : U)
    (i : ItemId) (h : self.repo.get_one i none = none) :
    self.update_one d i = ([Ev.repoGet], Outcome.httpError 404 notFoundDetail) := by
  simp [HttpRepo.update_one, h]

theorem update_one_ok {C R U : Type} (self : HttpRepo C R U) (d : U)
    (i : ItemId) {item r : R} (hf : self.repo.get_one i none = some item)
    (h : self.repo.update i d = .ok r) :
    self.update_one d i =
      ([Ev.repoGet, Ev.repoUpdate], Outcome.returned (some r)) := by
  simp [HttpRepo.update_one, hf, h]

theorem update_one_error {C R U : Type} (self : HttpRepo C R U) (d : U)
    (i : ItemId) {item : R} {e : PyExc}
    (hf : self.repo.get_one i none = some item)
    (h : self.repo.update i d = .error e) :
    self.update_one d i =
      ([Ev.repoGet, Ev.repoUpdate, Ev.logException e, Ev.rollback],
        match self.get_exception_message e with
        | some msg => Outcome.httpError 400 ⟨msg, some (strOfExc e)⟩
        | none => Outcome.crashed) := by
  simp [HttpRepo.update_one, HttpRepo.handle_exception, hf, h]

theorem patch_one_missing {C R U : Type} (self : HttpRepo C R U) (d : PModel)
    (i : ItemId) (h : self.repo.get_one i none = none) :
    self.patch_one d i = ([Ev.repoGet], Outcome.httpError 404 notFoundDetail) := by
  simp [HttpRepo.patch_one, h]

theorem patch_one_ok {C R U : Type} (self : HttpRepo C R U) (d : PModel)
    (i : ItemId) {item r : R} (hf : self.repo.get_one i none = some item)
    (h : self.repo.patch i d.model_dump = .ok r) :
    self.patch_one d i =
      ([Ev.repoGet, Ev.repoPatch d.model_dump], Outcome.returned (some r)) := by
  simp [HttpRepo.patch_one, hf, h]

theorem patch_one_error {C R U : Type} (self : HttpRepo C R U) (d : PModel)
    (i : ItemId) {item : R} {e : PyExc}
    (hf : self.repo.get_one i none = some item)
    (h : self.repo.patch i d.model_dump = .error e) :
    self.patch_one d i =
      ([Ev.repoGet, Ev.repoPatch d.model_dump, Ev.logException e, Ev.rollback],
        match self.get_exception_message e with
        | some msg => Outcome.httpError 400 ⟨msg, some (strOfExc e)⟩
        | none => Outcome.crashed) := by
  simp [HttpRepo.patch_one, HttpRepo.handle_exception, hf, h]

theorem delete_one_ok {C R U : Type} (self : HttpRepo C R U) (i : ItemId)
    {r : R} (h : self.repo.delete i = .ok r) :
    self.delete_one i =
      ([Ev.repoDelete, Ev.logInfo (deleteLogText ++ i)],
        Outcome.returned (some r)) := by
  simp [HttpRepo.delete_one, h]

theorem delete_one_error {C R U : Type} (self : HttpRepo C R U) (i : ItemId)
    {e : PyExc} (h : self.repo.delete i = .error e) :
    self.delete_one i =
      ([Ev.repoDelete, Ev.logException e, Ev.rollback],
        match self.get_exception_message e with
        | some msg => Outcome.httpError 400 ⟨msg, some (strOfExc e)⟩
        | none => Outcome.crashed) := by
  simp [HttpRepo.delete_one, HttpRepo.handle_exception, h]

/-- C1 (counterexample): the claim "for every caught exception that is not a
uniqueness-constraint violation, `get_exception_message` returns the default
message (no mapping supplied) or the mapping of its type" fails at a
concrete input: for the caught exception `excFK` — an `IntegrityError`
wrapping a foreign-key violation, not a uniqueness violation — with no
mapping supplied, `get_exception_message` produces no message at all (the
source raises `UnboundLocalError` on the never-assigned `key`/`value`),
instead of the default message. -/
theorem C1_counterexample :
    badSelf.exception_msgs = (none : Option (ExcType → PyStr))
    ∧ badSelf.default_message = stdDefaultMsg
    ∧ badSelf.get_exception_message excFK = none := ⟨rfl, rfl, rfl⟩

/-- C1 (amended): for every caught exception that is not an
`IntegrityError`, `get_exception_message` returns the default message when
no mapping was supplied, and the mapping applied to the exception's type
when one was; for an `IntegrityError` whose driver payload is not one of
the two recognized uniqueness-violation shapes it raises instead of
returning a message. -/
theorem C1_fallback_message {C R U : Type} (self : HttpRepo C R U)
    (tag : Nat) (m st : PyStr) (ps : List PyStr) :
    (self.exception_msgs = none →
      self.get_exception_message (PyExc.otherExc tag m) =
        some self.default_message)
    ∧ (∀ f, self.exception_msgs = some f →
      self.get_exception_message (PyExc.otherExc tag m) =
        some (f (ExcType.otherT tag)))
    ∧ self.get_exception_message
        (PyExc.integrityError (Orig.otherOrig m) st ps) = none := by
  refine ⟨?_, ?_, ?_⟩
  · intro h
    simp [HttpRepo.get_exception_message, h]
  · intro f h
    simp [HttpRepo.get_exception_message, h, PyExc.pyType]
  · simp [HttpRepo.get_exception_message]

/-- C1 (witness): the amended fallback behaviour at concrete bridges: the
default-constructed bridge maps an ordinary exception to the standard
default message, and a bridge with a custom mapping applies the mapping. -/
theorem C1_fallback_message_witness :
    badSelf.get_exception_message (PyExc.otherExc 3 []) = some stdDefaultMsg
    ∧ mapSelf.get_exception_message (PyExc.otherExc 3 []) =
        some (mapFun (ExcType.otherT 3)) :=
  ⟨(C1_fallback_message badSelf 3 [] [] []).1 rfl,
    (C1_fallback_message mapSelf 3 [] [] []).2.1 mapFun rfl⟩

/-- C2: for every uniqueness violation raised by either driver, the
produced message is `"{key capitalized} {value} is unavailable."`, with the
same field and value recovered from the PostgreSQL payload (second line of
the native error text, stripped and split on `"="`) and from the SQLite
payload (position of the failing column in the statement's column list,
used to index the bound parameters), given equivalent well-formed inputs. -/
theorem C2_unavailable_message {C R U : Type} (self : HttpRepo C R U)
    (line0 key value table pre postA postB stmtAny : PyStr)
    (cols params paramsAny : List PyStr)
    (h0 : '\n' ∉ line0)
    (hval : ∀ c ∈ value, isValChar c = true)
    (htable : ∀ c ∈ table, isColChar c = true)
    (hcols : ∀ col ∈ cols, ∀ c ∈ col, isColChar c = true)
    (hne : cols ≠ [])
    (hmem : key ∈ cols)
    (hpre : '(' ∉ pre)
    (hpostA : '(' ∉ postA)
    (hparam : params[cols.indexOf key]? = some value) :
    self.get_exception_message
        (PyExc.integrityError (Orig.pgUnique (mkPgError line0 key value))
          stmtAny paramsAny)
      = some (unavailableMsg key value)
    ∧ self.get_exception_message
        (PyExc.integrityError (Orig.sqliteIntegrity (mkSqliteMsg table key))
          (mkSqliteStmt pre cols postA postB) params)
      = some (unavailableMsg key value) := by
  constructor
  · simp only [HttpRepo.get_exception_message,
      pgParse_canonical h0 (hcols key hmem) hval]
  · simp only [HttpRepo.get_exception_message,
      sqliteParse_canonical htable hcols hne hmem hpre hpostA hparam]

/-- C2 (witness): the spec's own example — a duplicate `"Soup"` in the
unique `"name"` column yields `"Name Soup is unavailable."` under both
driver error formats. -/
theorem C2_unavailable_message_witness :
    badSelf.get_exception_message
        (PyExc.integrityError
          (Orig.pgUnique (mkPgError
            ("ERROR:  duplicate key value violates unique constraint".toList)
            ("name".toList) ("Soup".toList))) [] [])
      = some ("Name Soup is unavailable.".toList)
    ∧ badSelf.get_exception_message
        (PyExc.integrityError
          (Orig.sqliteIntegrity
            (mkSqliteMsg ("recipes".toList) ("name".toList)))
          (mkSqliteStmt ("INSERT INTO recipes ".toList)
            [("name".toList), ("slug".toList)]
            (" VALUES ".toList) ("?, ?)".toList))
          [("Soup".toList), ("soup".toList)])
      = some ("Name Soup is unavailable.".toList) :=
  C2_unavailable_message badSelf
    ("ERROR:  duplicate key value violates unique constraint".toList)
    ("name".toList) ("Soup".toList) ("recipes".toList)
    ("INSERT INTO recipes ".toList) (" VALUES ".toList) ("?, ?)".toList) []
    [("name".toList), ("slug".toList)] [("Soup".toList), ("soup".toList)] []
    (by decide) (by decide) (by decide) (by decide) (by decide) (by decide)
    (by decide) (by decide) (by decide)

/-- C3 (counterexample): the claim "every operation either returns a
non-null result or terminates by raising a structured HTTP error" fails at
a concrete input: `create_one` over a repository whose create raises the
unrecognized integrity error `excFK` terminates with an escaped non-HTTP
exception (the message-translation `UnboundLocalError`), which is neither a
returned object nor a structured HTTP error. -/
theorem C3_counterexample :
    HttpRepo.runOp badSelf (OpCall.createC 0) =
      ([Ev.repoCreate, Ev.logException excFK, Ev.rollback], Outcome.crashed)
    ∧ Outcome.isStructured (HttpRepo.runOp badSelf (OpCall.createC 0)).2 =
        false := ⟨rfl, rfl⟩

/-- C3 (amended): every bridge operation either produces a structured
outcome — a non-null returned object or a raised HTTP error — or crashes
with a non-HTTP exception, the latter only when a repository write raised
an exception whose message translation itself raises; no operation ever
returns Python `None`. -/
theorem C3_structured_or_translation_crash {C R U : Type}
    (self : HttpRepo C R U) (c : OpCall C U) :
    (Outcome.isStructured (self.runOp c).2 = true
      ∨ ((self.runOp c).2 = Outcome.crashed
          ∧ ∃ e, opRaised self c e ∧ self.get_exception_message e = none))
    ∧ Outcome.isRetNone (self.runOp c).2 = false := by
  cases c with
  | createC d =>
    simp only [HttpRepo.runOp]
    cases hc : self.repo.create d with
    | ok r =>
      rw [create_one_ok self d hc]
      exact ⟨Or.inl rfl, rfl⟩
    | error e =>
      rw [create_one_error self d hc]
      cases hg : self.get_exception_message e with
      | some msg => simp [hg, Outcome.isStructured, Outcome.isRetNone]
      | none =>
        exact ⟨Or.inr ⟨by simp [hg], e, hc, hg⟩, by simp [hg, Outcome.isRetNone]⟩
  | getC i k =>
    simp only [HttpRepo.runOp]
    cases hgo : self.repo.get_one i k with
    | none =>
      rw [get_one_missing self i k hgo]
      exact ⟨Or.inl rfl, rfl⟩
    | some r =>
      rw [get_one_found self i k hgo]
      exact ⟨Or.inl rfl, rfl⟩
  | updateC d i =>
    simp only [HttpRepo.runOp]
    cases hgo : self.repo.get_one i none with
    | none =>
      rw [update_one_missing self d i hgo]
      exact ⟨Or.inl rfl, rfl⟩
    | some item =>
      cases hu : self.repo.update i d with
      | ok r =>
        rw [update_one_ok self d i hgo hu]
        exact ⟨Or.inl rfl, rfl⟩
      | error e =>
        rw [update_one_error self d i hgo hu]
        cases hg : self.get_exception_message e with
        | some msg => simp [hg, Outcome.isStructured, Outcome.isRetNone]
        | none =>
          exact ⟨Or.inr ⟨by simp [hg], e, ⟨⟨item, hgo⟩, hu⟩, hg⟩,
            by simp [hg, Outcome.isRetNone]⟩
  | patchC d i =>
    simp only [HttpRepo.runOp]
    cases hgo : self.repo.get_one i none with
    | none =>
      rw [patch_one_missing self d i hgo]
      exact ⟨Or.inl rfl, rfl⟩
    | some item =>
      cases hp : self.repo.patch i d.model_dump with
      | ok r =>
        rw [patch_one_ok self d i hgo hp]
        exact ⟨Or.inl rfl, rfl⟩
      | error e =>
        rw [patch_one_error self d i hgo hp]
        cases hg : self.get_exception_message e with
        | some msg => simp [hg, Outcome.isStructured, Outcome.isRetNone]
        | none =>
          exact ⟨Or.inr ⟨by simp [hg], e, ⟨⟨item, hgo⟩, hp⟩, hg⟩,
            by simp [hg, Outcome.isRetNone]⟩
  | deleteC i =>
    simp only [HttpRepo.runOp]
    cases hd : self.repo.delete i with
    | ok r =>
      rw [delete_one_ok self i hd]
      exact ⟨Or.inl rfl, rfl⟩
    | error e =>
      rw [delete_one_error self i hd]
      cases hg : self.get_exception_message e with
      | some msg => simp [hg, Outcome.isStructured, Outcome.isRetNone]
      | none =>
        exact ⟨Or.inr ⟨by simp [hg], e, hd, hg⟩, by simp [hg, Outcome.isRetNone]⟩

/-- C4 (counterexample): the claim "every storage-layer exception raised by
a repository call is caught and converted to a terminal, structured
user-facing error" fails at a concrete input: `update_one` over a
repository whose update raises the unrecognized integrity error `excFK`
ends in an escaped non-HTTP exception rather than a structured error. -/
theorem C4_counterexample :
    badRepo.update ("x".toList) 7 = Except.error excFK
    ∧ HttpRepo.update_one badSelf 7 ("x".toList) =
        ([Ev.repoGet, Ev.repoUpdate, Ev.logException excFK, Ev.rollback],
          Outcome.crashed)
    ∧ Outcome.isStructured (HttpRepo.update_one badSelf 7 ("x".toList)).2 =
        false := ⟨rfl, rfl, rfl⟩

/-- C4 (amended): every storage-layer exception raised by a repository
write call is caught inside the bridge, and is converted to the terminal
structured 400 error carrying the translated message and the raw exception
text whenever the message translation succeeds (when the translation itself
raises, the escaping exception is the translation failure, not the
repository exception). -/
theorem C4_caught_and_converted {C R U : Type} (self : HttpRepo C R U) :
    (∀ (d : C) (e : PyExc), self.repo.create d = .error e →
      ∀ msg, self.get_exception_message e = some msg →
        (self.create_one d).2 =
          Outcome.httpError 400 ⟨msg, some (strOfExc e)⟩)
    ∧ (∀ (d : U) (i : ItemId) (item : R) (e : PyExc),
        self.repo.get_one i none = some item →
        self.repo.update i d = .error e →
        ∀ msg, self.get_exception_message e = some msg →
          (self.update_one d i).2 =
            Outcome.httpError 400 ⟨msg, some (strOfExc e)⟩)
    ∧ (∀ (d : PModel) (i : ItemId) (item : R) (e : PyExc),
        self.repo.get_one i none = some item →
        self.repo.patch i d.model_dump = .error e →
        ∀ msg, self.get_exception_message e = some msg →
          (self.patch_one d i).2 =
            Outcome.httpError 400 ⟨msg, some (strOfExc e)⟩)
    ∧ (∀ (i : ItemId) (e : PyExc), self.repo.delete i = .error e →
        ∀ msg, self.get_exception_message e = some msg →
          (self.delete_one i).2 =
            Outcome.httpError 400 ⟨msg, some (strOfExc e)⟩) := by
  refine ⟨?_, ?_, ?_, ?_⟩
  · intro d e hc msg hm
    rw [create_one_error self d hc]
    simp [hm]
  · intro d i item e hf hu msg hm
    rw [update_one_error self d i hf hu]
    simp [hm]
  · intro d i item e hf hp msg hm
    rw [patch_one_error self d i hf hp]
    simp [hm]
  · intro i e hd msg hm
    rw [delete_one_error self i hd]
    simp [hm]

/-- C4 (witness): a failing create over `failRepo` is converted to the
structured 400 error with the default message and the raw text. -/
theorem C4_caught_and_converted_witness :
    (failSelf.create_one 0).2 =
      Outcome.httpError 400 ⟨stdDefaultMsg, some ("boom".toList)⟩ :=
  (C4_caught_and_converted failSelf).1 0 excBoom rfl stdDefaultMsg rfl

/-- C5: for every id whose lookup yields no item, `update_one` and
`patch_one` terminate with the 404 "Not found." error, and their traces
contain no repository write call. -/
theorem C5_not_found_before_write {C R U : Type} (self : HttpRepo C R U)
    (d : U) (p : PModel) (i : ItemId)
    (h : self.repo.get_one i none = none) :
    self.update_one d i = ([Ev.repoGet], Outcome.httpError 404 notFoundDetail)
    ∧ self.patch_one p i = ([Ev.repoGet], Outcome.httpError 404 notFoundDetail)
    ∧ notFoundDetail.message = ("Not found.".toList)
    ∧ writeCount (self.update_one d i).1 = 0
    ∧ writeCount (self.patch_one p i).1 = 0 := by
  refine ⟨update_one_missing self d i h, patch_one_missing self p i h, rfl,
    ?_, ?_⟩
  · rw [update_one_missing self d i h]
    rfl
  · rw [patch_one_missing self p i h]
    rfl

/-- C5 (witness): the non-existent id `"y"` over `failRepo`. -/
theorem C5_not_found_before_write_witness :
    failSelf.update_one 7 ("y".toList) =
      ([Ev.repoGet], Outcome.httpError 404 notFoundDetail)
    ∧ writeCount (failSelf.patch_one pmSample ("y".toList)).1 = 0 :=
  ⟨(C5_not_found_before_write failSelf 7 pmSample ("y".toList) (by decide)).1,
    (C5_not_found_before_write failSelf 7 pmSample ("y".toList)
      (by decide)).2.2.2.2⟩

/-- C6: when the existence check passes, `patch_one` forwards to the
repository's patch operation exactly the dumped mapping, and a pair belongs
to that mapping precisely when it comes from a field that was explicitly
set and whose value differs from its declared default. -/
theorem C6_patch_forwards_exactly {C R U : Type} (self : HttpRepo C R U)
    (data : PModel) (i : ItemId) (item : R)
    (hf : self.repo.get_one i none = some item) :
    (∃ rest, (self.patch_one data i).1 =
      Ev.repoGet :: Ev.repoPatch data.model_dump :: rest)
    ∧ ∀ n v, (n, v) ∈ data.model_dump ↔
        ∃ f, f ∈ data.fields ∧ f.name = n ∧ f.value = v ∧ f.isSet = true ∧
          f.value ≠ f.dflt := by
  constructor
  · cases hp : self.repo.patch i data.model_dump with
    | ok r => exact ⟨[], by rw [patch_one_ok self data i hf hp]⟩
    | error e =>
      exact ⟨[Ev.logException e, Ev.rollback],
        by rw [patch_one_error self data i hf hp]⟩
  · intro n v
    constructor
    · intro hm
      simp only [PModel.model_dump, List.mem_map, List.mem_filter,
        Bool.and_eq_true, bne_iff_ne] at hm
      obtain ⟨f, ⟨hfm, hset, hneq⟩, heq⟩ := hm
      exact ⟨f, hfm, congrArg Prod.fst heq, congrArg Prod.snd heq, hset, hneq⟩
    · rintro ⟨f, hfm, hn, hv, hset, hneq⟩
      simp only [PModel.model_dump, List.mem_map, List.mem_filter,
        Bool.and_eq_true, bne_iff_ne]
      exact ⟨f, ⟨hfm, hset, hneq⟩, by rw [hn, hv]⟩

/-- C6 (witness): patching the sample model through `okRepo` forwards
exactly its dumped mapping. -/
theorem C6_patch_forwards_exactly_witness :
    ∃ rest, (okSelf.patch_one pmSample ("x".toList)).1 =
      Ev.repoGet :: Ev.repoPatch pmSample.model_dump :: rest :=
  (C6_patch_forwards_exactly okSelf pmSample ("x".toList) 5 (by decide)).1

/-- C7 (counterexample): the claim "on every write failure the rollback is
invoked exactly once, after logging and before raising the terminal HTTP
400 error whose body contains the translated message and the raw text"
fails at a concrete input: a patch failing with the unrecognized integrity
error `excFK` does log and roll back, but no HTTP 400 error is raised — the
operation ends with an escaped non-HTTP exception. -/
theorem C7_counterexample :
    badRepo.patch ("x".toList) pmSample.model_dump = Except.error excFK
    ∧ HttpRepo.patch_one badSelf pmSample ("x".toList) =
        ([Ev.repoGet, Ev.repoPatch pmSample.model_dump,
          Ev.logException excFK, Ev.rollback], Outcome.crashed)
    ∧ Outcome.is400 (HttpRepo.patch_one badSelf pmSample ("x".toList)).2 =
        false := ⟨rfl, rfl, rfl⟩

/-- C7 (amended): on every write failure the bridge logs the exception and
then rolls the session back, exactly once, as the last two emitted events;
and whenever the message translation succeeds the operation then raises the
terminal HTTP 400 error whose body carries the translated message and the
raw exception text. -/
theorem C7_rollback_once {C R U : Type} (self : HttpRepo C R U) (e : PyExc) :
    (∀ d : C, self.repo.create d = .error e →
      rollbackCount (self.create_one d).1 = 1
      ∧ (∃ p, (self.create_one d).1 = p ++ [Ev.logException e, Ev.rollback]
          ∧ rollbackCount p = 0)
      ∧ ∀ msg, self.get_exception_message e = some msg →
          (self.create_one d).2 =
            Outcome.httpError 400 ⟨msg, some (strOfExc e)⟩)
    ∧ (∀ (d : U) (i : ItemId) (item : R),
        self.repo.get_one i none = some item →
        self.repo.update i d = .error e →
        rollbackCount (self.update_one d i).1 = 1
        ∧ (∃ p, (self.update_one d i).1 =
              p ++ [Ev.logException e, Ev.rollback] ∧ rollbackCount p = 0)
        ∧ ∀ msg, self.get_exception_message e = some msg →
            (self.update_one d i).2 =
              Outcome.httpError 400 ⟨msg, some (strOfExc e)⟩)
    ∧ (∀ (d : PModel) (i : ItemId) (item : R),
        self.repo.get_one i none = some item →
        self.repo.patch i d.model_dump = .error e →
        rollbackCount (self.patch_one d i).1 = 1
        ∧ (∃ p, (self.patch_one d i).1 =
              p ++ [Ev.logException e, Ev.rollback] ∧ rollbackCount p = 0)
        ∧ ∀ msg, self.get_exception_message e = some msg →
            (self.patch_one d i).2 =
              Outcome.httpError 400 ⟨msg, some (strOfExc e)⟩)
    ∧ (∀ i : ItemId, self.repo.delete i = .error e →
        rollbackCount (self.delete_one i).1 = 1
        ∧ (∃ p, (self.delete_one i).1 =
              p ++ [Ev.logException e, Ev.rollback] ∧ rollbackCount p = 0)
        ∧ ∀ msg, self.get_exception_message e = some msg →
            (self.delete_one i).2 =
              Outcome.httpError 400 ⟨msg, some (strOfExc e)⟩) := by
  refine ⟨?_, ?_, ?_, ?_⟩
  · intro d hc
    rw [create_one_error self d hc]
    refine ⟨rfl, ⟨[Ev.repoCreate], rfl, rfl⟩, ?_⟩
    intro msg hm
    simp [hm]
  · intro d i item hf hu
    rw [update_one_error self d i hf hu]
    refine ⟨rfl, ⟨[Ev.repoGet, Ev.repoUpdate], rfl, rfl⟩, ?_⟩
    intro msg hm
    simp [hm]
  · intro d i item hf hp
    rw [patch_one_error self d i hf hp]
    refine ⟨rfl, ⟨[Ev.repoGet, Ev.repoPatch d.model_dump], rfl, rfl⟩, ?_⟩
    intro msg hm
    simp [hm]
  · intro i hd
    rw [delete_one_error self i hd]
    refine ⟨rfl, ⟨[Ev.repoDelete], rfl, rfl⟩, ?_⟩
    intro msg hm
    simp [hm]

/-- C7 (witness): a failing delete over `failRepo` rolls back exactly
once. -/
theorem C7_rollback_once_witness :
    rollbackCount (failSelf.delete_one ("x".toList)).1 = 1 :=
  ((C7_rollback_once failSelf excBoom).2.2.2 ("x".toList) rfl).1

/-- C8: `get_one` terminates with the 404 "Not found." error exactly when
the repository lookup yields nothing, and otherwise returns the looked-up
item unchanged. -/
theorem C8_get_one_spec {C R U : Type} (self : HttpRepo C R U) (i : ItemId)
    (k : Option PyStr) :
    (self.repo.get_one i k = none →
      self.get_one i k = ([Ev.repoGet], Outcome.httpError 404 notFoundDetail))
    ∧ (∀ r, self.repo.get_one i k = some r →
      self.get_one i k = ([Ev.repoGet], Outcome.returned (some r)))
    ∧ notFoundDetail = ⟨"Not found.".toList, none⟩ :=
  ⟨fun h => get_one_missing self i k h,
    fun _ h => get_one_found self i k h, rfl⟩

/-- C8 (witness): over `okRepo`, the id `"x"` is returned unchanged and the
id `"y"` yields the 404 "Not found." error. -/
theorem C8_get_one_spec_witness :
    okSelf.get_one ("x".toList) none =
      ([Ev.repoGet], Outcome.returned (some 5))
    ∧ okSelf.get_one ("y".toList) none =
        ([Ev.repoGet], Outcome.httpError 404 notFoundDetail) :=
  ⟨(C8_get_one_spec okSelf ("x".toList) none).2.1 5 (by decide),
    (C8_get_one_spec okSelf ("y".toList) none).1 (by decide)⟩

/-- C9: when the repository delete succeeds, the trace of `delete_one`
contains exactly one informational record, whose text contains the deleted
id; when the delete raises, no informational record is logged. -/
theorem C9_delete_logging {C R U : Type} (self : HttpRepo C R U)
    (i : ItemId) :
    (∀ r : R, self.repo.delete i = .ok r →
      infoEvents (self.delete_one i).1 = [Ev.logInfo (deleteLogText ++ i)]
      ∧ Occurs i (deleteLogText ++ i))
    ∧ ∀ e, self.repo.delete i = .error e →
        infoEvents (self.delete_one i).1 = [] := by
  constructor
  · intro r h
    rw [delete_one_ok self i h]
    exact ⟨rfl, ⟨deleteLogText, [], by simp⟩⟩
  · intro e h
    rw [delete_one_error self i h]
    rfl

/-- C9 (witness): a successful delete over `okRepo` logs exactly the one
deletion record. -/
theorem C9_delete_logging_witness :
    infoEvents (okSelf.delete_one ("x".toList)).1 =
      [Ev.logInfo (deleteLogText ++ ("x".toList))] :=
  ((C9_delete_logging okSelf ("x".toList)).1 4 rfl).1

/-- C10: the constructor applies a supplied default-message override only
when it is truthy: an empty string (like an absent argument) leaves the
class-level default "An unexpected error occurred." in place, while any
nonempty string replaces it. -/
theorem C10_empty_default_ignored {C R U : Type}
    (repo : RepositoryGeneric C R U) (em : Option (ExcType → PyStr)) :
    (HttpRepo.init repo em (some [])).default_message = stdDefaultMsg
    ∧ (HttpRepo.init repo em none).default_message = stdDefaultMsg
    ∧ ∀ s : PyStr, s ≠ [] →
        (HttpRepo.init repo em (some s)).default_message = s := by
  refine ⟨rfl, rfl, fun s hs => ?_⟩
  simp [HttpRepo.init, hs]

/-- C10 (witness): the empty override is ignored while a nonempty one is
applied. -/
theorem C10_empty_default_ignored_witness :
    (HttpRepo.init okRepo none (some [])).default_message = stdDefaultMsg
    ∧ (HttpRepo.init okRepo none
        (some ("custom".toList))).default_message = ("custom".toList) :=
  ⟨(C10_empty_default_ignored okRepo none).1,
    (C10_empty_default_ignored okRepo none).2.2 ("custom".toList) (by decide)⟩
